import Mathlib

/-!
# Verification of the plotly streaming write pipeline

Shallow embedding of the `StreamWriter` class (and the surrounding
stream-handle code) of `plotly/plotly/plotly.py`, together with proofs
about the outbound queue, the backoff policies, the response
classification, the heartbeat, the chunked-transfer encoding and the
`open`/worker error-propagation protocol.

Python strings are modelled as lists of Unicode code points
(`List Nat`); byte strings as lists of byte values (`List Nat`, each
`< 256`); wall-clock times and durations as rationals (`ℚ`).
A `deque(maxlen = C)` with `appendleft` at the left end and `pop` at the
right end is modelled as a `List` whose head is the deque's left end.
-/

namespace Plotly

/-- A Python `str`, as a list of Unicode code points. -/
abbrev PyStr := List Nat

/-- A Python `bytes` value, as a list of byte values. -/
abbrev Bytes := List Nat

/-- The error classes a worker exception can carry.  `isinstance` checks
against the configured `ignore_errors` tuple are modelled by membership
of `classId` in a list of class ids; `isinstance(e, socket.error)` by
the `is_socket` flag. -/
structure WorkerError where
  classId : Nat
  is_socket : Bool
deriving DecidableEq

/-- Exceptions that `StreamWriter` methods can raise to the caller:
`exceptions.TooManyConnectFailures` (raised by both backoff routines),
`exceptions.ClosedConnection(message, status_code=status)`, and the
re-raise of a stored worker error by `_raise_for_error`. -/
inductive PyExn where
  | tooManyConnectFailures
  | closedConnection (message : PyStr) (status_code : Option Nat)
  | raisedError (e : WorkerError)
deriving DecidableEq

/-- The raw bytes of a captured server response, pre-parsed: `none`
models a response on which `HttpResponseParser` fails with
`AttributeError`/`BadStatusLine` (so `message = ''`, `status = None`);
`some (status, body)` a parseable response. -/
abbrev RawResponse := Option (Nat × PyStr)

/-- The mutable state of a `StreamWriter` instance, one field per
attribute set in `StreamWriter.__init__` (lines 398-425).  `_thread`
existing-and-alive is modelled by the Boolean `thread`; `_reader` and
`_writer` references by Booleans. -/
structure StreamWriter where
  token : PyStr
  ignore_status_codes : List (Option Nat)
  ignore_errors : List Nat
  queue_length : Nat
  initial_write_timeout : ℚ
  queue : List PyStr
  last_beat : Option ℚ
  connect_errors : Nat
  last_connect_error : ℚ
  disconnections : Nat
  last_disconnection : ℚ
  thread : Bool
  reader : Bool
  writer : Bool
  error : Option WorkerError
  response : Option RawResponse
  host : PyStr
  port : Nat
deriving DecidableEq

/-- Class constant `StreamWriter.linear_back_off_rate = 0.250` seconds. -/
def linear_back_off_rate : ℚ := 1 / 4

/-- Class constant `StreamWriter.linear_wait_max = 16` seconds. -/
def linear_wait_max : ℚ := 16

/-- Class constant `StreamWriter.exponential_back_off_base = 5`. -/
def exponential_back_off_base : Nat := 5

/-- Class constant `StreamWriter.exponential_wait_max = 320` seconds. -/
def exponential_wait_max : Nat := 320

/-- Default of the `ignore_status_codes` parameter of
`StreamWriter.__init__`: the tuple `(None, 200)`. -/
def init_default_ignore_status_codes : List (Option Nat) := [none, some 200]

/-- Default of the `queue_length` parameter of `StreamWriter.__init__`. -/
def init_default_queue_length : Nat := 500

/-- Default of the `initial_write_timeout` parameter of
`StreamWriter.__init__`. -/
def init_default_initial_write_timeout : ℚ := 4

/-- Constructor `StreamWriter.__init__`: all parameters explicit; `t0` is the value
`time.time()` returns at construction time (used for both
`_last_connect_error` and `_last_disconnection`). -/
def streamWriterInit (token : PyStr) (ignore_status_codes : List (Option Nat))
    (ignore_errors : List Nat) (queue_length : Nat)
    (initial_write_timeout : ℚ) (host : PyStr) (t0 : ℚ) : StreamWriter :=
  { token := token
    ignore_status_codes := ignore_status_codes
    ignore_errors := ignore_errors
    queue_length := queue_length
    initial_write_timeout := initial_write_timeout
    queue := []
    last_beat := none
    connect_errors := 0
    last_connect_error := t0
    disconnections := 0
    last_disconnection := t0
    thread := false
    reader := false
    writer := false
    error := none
    response := none
    host := host
    port := 80 }

/-- A `StreamWriter` constructed with every keyword argument left at its
default. -/
def streamWriterDefault (token : PyStr) (host : PyStr) (t0 : ℚ) : StreamWriter :=
  streamWriterInit token init_default_ignore_status_codes []
    init_default_queue_length init_default_initial_write_timeout host t0

/-- Method `StreamWriter._reset` (lines 427-433): prep some attributes to
reconnect. -/
def reset (s : StreamWriter) : StreamWriter :=
  { s with response := none, error := none, last_beat := none,
           reader := false, writer := false }

/-- Property `StreamWriter.connected`: the thread exists and is alive. -/
def connected (s : StreamWriter) : Bool := s.thread

/-- Method `StreamWriter._back_off_linearly` (lines 435-447).  Returns the
state after the call together with either the slept wait time or the
raised exception; `now` is the value of `time.time()` at call time.
Note the counter decay, the timestamp update and the increment all
happen before the wait-vs-ceiling test, so they survive even on the
raising path. -/
def back_off_linearly (now : ℚ) (s : StreamWriter) :
    StreamWriter × Except PyExn ℚ :=
  let connect_errors :=
    if now - s.last_connect_error > linear_wait_max * 2 then 0
    else s.connect_errors
  let connect_errors := connect_errors + 1
  let s := { s with last_connect_error := now, connect_errors := connect_errors }
  let wait_time := (connect_errors : ℚ) * linear_back_off_rate
  (s, if wait_time > linear_wait_max then .error .tooManyConnectFailures
      else .ok wait_time)

/-- Method `StreamWriter._back_off_exponentially` (lines 449-461), analogous to
`back_off_linearly`; waits are natural numbers (`5 ** n`). -/
def back_off_exponentially (now : ℚ) (s : StreamWriter) :
    StreamWriter × Except PyExn Nat :=
  let disconnections :=
    if now - s.last_disconnection > (exponential_wait_max : ℚ) * 2 then 0
    else s.disconnections
  let disconnections := disconnections + 1
  let s := { s with last_disconnection := now, disconnections := disconnections }
  let wait_time := exponential_back_off_base ^ disconnections
  (s, if wait_time > exponential_wait_max then .error .tooManyConnectFailures
      else .ok wait_time)

/-- The `(status, message)` pair `_raise_for_response` extracts from the
captured response: a parse failure yields `(None, '')`. -/
def parseResponse : RawResponse → Option Nat × PyStr
  | some (st, body) => (some st, body)
  | none => (none, [])

/-- Python's `status >= 500` where `status` may be `None`: under the
Python 2 ordering `None` compares below every integer, so the test is
false for `None`. -/
def statusGe500 : Option Nat → Bool
  | some n => 500 ≤ n
  | none => false

/-- Method `StreamWriter._raise_for_response` (lines 463-483). -/
def raise_for_response (now : ℚ) (s : StreamWriter) :
    StreamWriter × Except PyExn Unit :=
  match s.response with
  | none => (s, .ok ())
  | some raw =>
    let (status, message) := parseResponse raw
    if status ∈ s.ignore_status_codes then
      if statusGe500 status then
        let (s, r) := back_off_linearly now s
        (s, r.map fun _ => ())
      else
        let (s, r) := back_off_exponentially now s
        (s, r.map fun _ => ())
    else
      (s, .error (.closedConnection message status))

/-- Method `StreamWriter._raise_for_error` (lines 485-497). -/
def raise_for_error (now : ℚ) (s : StreamWriter) :
    StreamWriter × Except PyExn Unit :=
  match s.error with
  | none => (s, .ok ())
  | some e =>
    if e.classId ∈ s.ignore_errors then
      if e.is_socket then
        let (s, r) := back_off_linearly now s
        (s, r.map fun _ => ())
      else (s, .ok ())
    else
      (s, .error (.raisedError e))

/-- Method `StreamWriter.open` (lines 597-618): no-op when connected; otherwise
raise for any captured response or error, reset, and start a daemon
thread. -/
def openWriter (now : ℚ) (s : StreamWriter) :
    StreamWriter × Except PyExn Unit :=
  if connected s then (s, .ok ())
  else
    let (s, r) := raise_for_response now s
    match r with
    | .error e => (s, .error e)
    | .ok _ =>
      let (s, r) := raise_for_error now s
      match r with
      | .error e => (s, .error e)
      | .ok _ =>
        ({ reset s with thread := true }, .ok ())

/-- Operation `deque(maxlen := C).appendleft x` on a deque holding `q` (head =
left end): the new element enters on the left; when the deque is full
the element at the opposite (right) end is discarded. -/
def dequeAppendleft (C : Nat) (x : α) (q : List α) : List α :=
  List.take C (x :: q)

/-- The line-feed code point appended to every enqueued chunk. -/
def lineFeed : Nat := 10

/-- Appending `chunk + '\n'`: the trailing line break added before admission. -/
def addNl (chunk : PyStr) : PyStr := chunk ++ [lineFeed]

/-- Method `StreamWriter.write` (lines 620-637): auto-open when not connected,
then `self._queue.appendleft(chunk + '\n')`.  Serialisation of
non-string payloads through `json.dumps` is an external collaborator;
`chunk` here is the already-textual payload. -/
def write (now : ℚ) (chunk : PyStr) (s : StreamWriter) :
    StreamWriter × Except PyExn Unit :=
  let (s, r) := if connected s then (s, .ok ()) else openWriter now s
  match r with
  | .error e => (s, .error e)
  | .ok _ =>
    ({ s with queue := dequeAppendleft s.queue_length (addNl chunk) s.queue },
     .ok ())

/-- Method `StreamWriter._check_pulse` (lines 499-506); `now` models the
`time.time()` value of the call. -/
def check_pulse (now : ℚ) (s : StreamWriter) :
    StreamWriter × Except PyExn Unit :=
  let last_beat := s.last_beat.getD now
  let s := { s with last_beat := some last_beat }
  if now - last_beat > 30 then
    let s := { s with last_beat := some now }
    if s.queue = [] then write now [] s
    else (s, .ok ())
  else (s, .ok ())

/-- The code point of the lowercase hex digit of value `d < 16`, as
produced by Python's `format(n, 'x')`. -/
def hexDigit (d : Nat) : Nat := if d < 10 then 48 + d else 87 + d

/-- The hex digits of `n`, least significant first; `fuel` bounds the
number of divisions (`fuel = n + 1` always suffices since `n / 16 < n`
for `n ≥ 16`). -/
def hexDigitsRev (fuel n : Nat) : List Nat :=
  match fuel with
  | 0 => []
  | fuel + 1 =>
    if n < 16 then [hexDigit n]
    else hexDigit (n % 16) :: hexDigitsRev fuel (n / 16)

/-- Python `format(n, 'x')`: the code points of the lowercase hex
representation of `n`, without prefix. -/
def formatHex (n : Nat) : PyStr := (hexDigitsRev (n + 1) n).reverse

/-- The carriage-return code point. -/
def carriageReturn : Nat := 13

/-- The text (code points) of the chunk message
`'{}\r\n{}\r\n'.format(hex_len, self._chunk)` built by
`StreamWriter._write`, where `hex_len = format(len(self._chunk), 'x')`
is the CHARACTER length of the popped item. -/
def chunkMessage (item : PyStr) : PyStr :=
  formatHex item.length ++ [carriageReturn, lineFeed] ++ item
    ++ [carriageReturn, lineFeed]

/-- UTF-8 encoding of one Unicode code point. -/
def utf8Char (n : Nat) : Bytes :=
  if n < 128 then [n]
  else if n < 2048 then [192 + n / 64, 128 + n % 64]
  else if n < 65536 then
    [224 + n / 4096, 128 + n / 64 % 64, 128 + n % 64]
  else
    [240 + n / 262144, 128 + n / 4096 % 64, 128 + n / 64 % 64, 128 + n % 64]

/-- Python `text.encode('utf-8')`. -/
def utf8Encode (text : PyStr) : Bytes := text.flatMap utf8Char

/-- The bytes `StreamWriter._write` sends for one popped queue item:
`message.encode('utf-8')`. -/
def chunkMessageBytes (item : PyStr) : Bytes := utf8Encode (chunkMessage item)

/-- Method `StreamWriter._write` (lines 517-524): pop the right end of the
queue if non-empty and send its chunk-encoded message.  The stray
argument-less `self._writer.write()` call on line 522 is modelled as a
no-op (leftover dead code before the real chunk-encoded write).
Returns the new state and the transmitted item with its encoded bytes,
or `none` when the queue was empty. -/
def writeStep (s : StreamWriter) : StreamWriter × Option (PyStr × Bytes) :=
  match s.queue.getLast? with
  | none => (s, none)
  | some item =>
    ({ s with queue := s.queue.dropLast }, some (item, chunkMessageBytes item))

/-- The items transmitted by repeatedly running `writeStep`, in
transmission order, with enough fuel to empty the queue. -/
def drainItems (s : StreamWriter) : Nat → List PyStr
  | 0 => []
  | fuel + 1 =>
    match writeStep s with
    | (_, none) => []
    | (s', some (item, _)) => item :: drainItems s' fuel

/-- The queue contents after a sequence of `write` enqueues on a
connected writer with capacity `C`, starting from queue `q` (head =
newest): each call performs `appendleft(chunk + '\n')`. -/
def enqueueAll (C : Nat) (chunks : List PyStr) (q : List PyStr) : List PyStr :=
  chunks.foldl (fun q c => dequeAppendleft C (addNl c) q) q

/-- Decode one HTTP chunked-transfer-coded chunk: one or more hex-digit
bytes, CRLF, that many bytes of data, CRLF; `acc`/`cnt` accumulate the
scanned length prefix.  Returns the data bytes together with any bytes
remaining after the terminating CRLF. -/
def decodeHexPrefix : Bytes → Nat → Nat → Option (Nat × Bytes)
  | [], _, _ => none
  | b :: bs, acc, cnt =>
    if 48 ≤ b ∧ b ≤ 57 then decodeHexPrefix bs (16 * acc + (b - 48)) (cnt + 1)
    else if 97 ≤ b ∧ b ≤ 102 then decodeHexPrefix bs (16 * acc + (b - 87)) (cnt + 1)
    else if 65 ≤ b ∧ b ≤ 70 then decodeHexPrefix bs (16 * acc + (b - 55)) (cnt + 1)
    else if b = 13 then
      match bs with
      | 10 :: rest => if cnt = 0 then none else some (acc, rest)
      | _ => none
    else none

/-- Decode a full chunked-transfer-coded message: hex length prefix,
CRLF, exactly that many data bytes, CRLF, nothing further. -/
def decodeChunk (bs : Bytes) : Option Bytes :=
  match decodeHexPrefix bs 0 0 with
  | none => none
  | some (n, rest) =>
    if rest.length = n + 2 ∧ rest.drop n = [carriageReturn, lineFeed] then
      some (rest.take n)
    else none

/-- Method `StreamWriter._read_write` (lines 543-573): the whole body runs
under `try ... except Exception as e: self._error = e`.  The body's
network effects are abstracted by its outcome: either it completes (or
is stopped) leaving state `s'`, or it raises worker error `e` while the
state is `sMid`.  Either way the coroutine itself returns normally (the
`finally` clause only closes the underlying socket object). -/
def read_write (outcome : Except (WorkerError × StreamWriter) StreamWriter) :
    StreamWriter × Except PyExn Unit :=
  match outcome with
  | .ok sEnd => (sEnd, .ok ())
  | .error (e, sMid) => ({ sMid with error := some e }, .ok ())

/-- Modelled from the spec: the default ignorable status set claimed in
section 6, `{no-status, 200, 408}`, for comparison with the defaults in
the source. -/
def specDefaultIgnorableSet : List (Option Nat) := [none, some 200, some 408]

/-- The default of the `reconnect_on` parameter of `Stream.write` and
`Stream.heartbeat` (lines 699 and 731-732): the tuple `(200, '', 408)`,
with the empty string (the no-status marker of the chunked-requests
transport) modelled as `none`. -/
def streamWriteDefaultReconnectOn : List (Option Nat) := [some 200, none, some 408]

/-- A default writer with the failure counters overridden, used to
evaluate the theorems on concrete inputs. -/
def sampleWriter (ce d : Nat) : StreamWriter :=
  { streamWriterDefault [] [] 0 with connect_errors := ce, disconnections := d }

/-! ## Queue lemmas -/

theorem take_append_take (C : Nat) (r m : List α) :
    List.take C (r ++ List.take C m) = List.take C (r ++ m) := by
  rw [List.take_append_eq_append_take, List.take_append_eq_append_take,
    List.take_take, Nat.min_eq_left (Nat.sub_le C r.length)]

theorem enqueueAll_eq (C : Nat) (cs : List PyStr) :
    ∀ q : List PyStr, q.length ≤ C →
      enqueueAll C cs q = List.take C ((cs.map addNl).reverse ++ q) := by
  induction cs with
  | nil =>
    intro q hq
    simp [enqueueAll, List.take_of_length_le hq]
  | cons c cs ih =>
    intro q hq
    have h1 : (dequeAppendleft C (addNl c) q).length ≤ C := by
      simp [dequeAppendleft]
    calc enqueueAll C (c :: cs) q
        = enqueueAll C cs (dequeAppendleft C (addNl c) q) := rfl
      _ = List.take C ((cs.map addNl).reverse ++ List.take C (addNl c :: q)) :=
          ih _ h1
      _ = List.take C ((cs.map addNl).reverse ++ (addNl c :: q)) :=
          take_append_take ..
      _ = List.take C (((c :: cs).map addNl).reverse ++ q) := by
          simp [List.append_assoc]

theorem enqueueAll_nil (C : Nat) (cs : List PyStr) :
    enqueueAll C cs [] = List.take C (cs.map addNl).reverse := by
  simpa using enqueueAll_eq C cs [] (by simp)

theorem drainItems_eq_reverse :
    ∀ (fuel : Nat) (s : StreamWriter), s.queue.length ≤ fuel →
      drainItems s fuel = s.queue.reverse := by
  intro fuel
  induction fuel with
  | zero =>
    intro s hs
    have hnil : s.queue = [] := List.eq_nil_of_length_eq_zero (Nat.le_zero.mp hs)
    simp [drainItems, hnil]
  | succ n ih =>
    intro s hs
    cases hq : s.queue.getLast? with
    | none =>
      have hnil : s.queue = [] := List.getLast?_eq_none_iff.mp hq
      simp [drainItems, writeStep, hq, hnil]
    | some a =>
      obtain ⟨l', hl⟩ := List.getLast?_eq_some_iff.mp hq
      have hlen : (s.queue.dropLast).length ≤ n := by
        have := List.length_dropLast s.queue
        have hpos : s.queue.length = l'.length + 1 := by simp [hl]
        omega
      have hrec := ih { s with queue := s.queue.dropLast } hlen
      simp only [drainItems, writeStep, hq]
      rw [hrec]
      simp [hl, List.dropLast_concat]

/-- C2: for every sequence of `write` enqueues the queue length stays
within the capacity `C`; the queue holds exactly the `C`
most-recently-enqueued chunks (newest first, each with its trailing
line break), the older entries having been discarded; strictly more
than `C` enqueues leave exactly `C` entries; the default capacity is
500; and on a connected writer each `StreamWriter.write` call performs
exactly the `appendleft` admission modelled by `dequeAppendleft`. -/
theorem queue_capacity_invariant (C : Nat) (cs : List PyStr) :
    (enqueueAll C cs []).length ≤ C ∧
    enqueueAll C cs [] = ((cs.map addNl).rtake C).reverse ∧
    (C < cs.length → (enqueueAll C cs []).length = C) ∧
    (∀ tok host t0, (streamWriterDefault tok host t0).queue_length = 500) ∧
    (∀ (now : ℚ) (chunk : PyStr) (s : StreamWriter), connected s = true →
      (write now chunk s).1.queue
        = dequeAppendleft s.queue_length (addNl chunk) s.queue) := by
  refine ⟨?_, ?_, ?_, fun tok host t0 => rfl, ?_⟩
  · rw [enqueueAll_nil]
    simp
  · rw [enqueueAll_nil, List.rtake_eq_reverse_take_reverse, List.reverse_reverse]
  · intro h
    rw [enqueueAll_nil]
    simp only [List.length_take, List.length_reverse, List.length_map]
    omega
  · intro now chunk s hconn
    simp [write, hconn]

/-- Concrete instance of `queue_capacity_invariant`: capacity 2, three
enqueues. -/
theorem queue_capacity_witness :
    (enqueueAll 2 [[97], [98], [99]] []).length = 2 ∧
    enqueueAll 2 [[97], [98], [99]] []
      = [[99, lineFeed], [98, lineFeed]] ∧
    (write 0 [97] { streamWriterDefault [] [] 0 with thread := true }).1.queue
      = [[97, lineFeed]] := by
  refine ⟨(queue_capacity_invariant 2 [[97], [98], [99]]).2.2.1 (by norm_num),
    by decide, ?_⟩
  rw [(queue_capacity_invariant 2 [[97], [98], [99]]).2.2.2.2 0 [97]
    { streamWriterDefault [] [] 0 with thread := true } rfl]
  decide

/-- C1 (corrected): the drain step `StreamWriter._write` removes and
transmits the LEAST-recently-enqueued remaining item first — the queue
is drained in FIFO order, yielding exactly the retained suffix of the
enqueued chunks in their original enqueue order — and on an empty queue
it transmits nothing and leaves the state unchanged. -/
theorem dequeue_fifo_order (s : StreamWriter) :
    (s.queue = [] → writeStep s = (s, none)) ∧
    (∀ (C : Nat) (cs : List PyStr), s.queue = enqueueAll C cs [] →
      drainItems s s.queue.length
        = (cs.map addNl).drop (cs.length - C)) := by
  constructor
  · intro hnil
    simp [writeStep, hnil]
  · intro C cs hqueue
    rw [drainItems_eq_reverse s.queue.length s le_rfl, hqueue, enqueueAll_nil,
      ← List.rtake_eq_reverse_take_reverse]
    simp [List.rtake]

/-- Concrete instance of `dequeue_fifo_order`: enqueue `'a'` then
`'b'`; the full drain transmits `'a\n'` before `'b\n'`. -/
theorem dequeue_fifo_order_witness :
    drainItems { streamWriterDefault [] [] 0 with
        queue := enqueueAll 500 [[97], [98]] [] } 2
      = [[97, lineFeed], [98, lineFeed]] ∧
    writeStep { streamWriterDefault [] [] 0 with queue := [] }
      = ({ streamWriterDefault [] [] 0 with queue := [] }, none) := by
  constructor
  · have h := (dequeue_fifo_order { streamWriterDefault [] [] 0 with
        queue := enqueueAll 500 [[97], [98]] [] }).2 500 [[97], [98]] rfl
    have hlen : (enqueueAll 500 [[97], [98]] ([] : List PyStr)).length = 2 := by
      decide
    rw [show ({ streamWriterDefault [] [] 0 with
        queue := enqueueAll 500 [[97], [98]] [] } : StreamWriter).queue.length = 2
      from hlen] at h
    rw [h]
    decide
  · exact (dequeue_fifo_order _).1 rfl

/-- Refutation of C1 as stated: with `'a'` enqueued before `'b'`, the
drain step transmits `'a\n'`, not the most-recently-enqueued `'b\n'`. -/
theorem dequeue_lifo_counterexample :
    ((writeStep { streamWriterDefault [] [] 0 with
        queue := enqueueAll 500 [[97], [98]] [] }).2.map Prod.fst
      = some (addNl [97])) ∧
    ¬ ((writeStep { streamWriterDefault [] [] 0 with
        queue := enqueueAll 500 [[97], [98]] [] }).2.map Prod.fst
      = some (addNl [98])) := by
  constructor
  · decide
  · decide

/-! ## Backoff theorems -/

/-- C3: the Nth consecutive connect-failure backoff (counter at `N - 1`
and no decay reset, i.e. at most `2 * 16` seconds since the previous
connect failure) records the failure time, bumps the counter to `N`,
and waits `N * 0.25` seconds — raising `TooManyConnectFailures` exactly
when `N * 0.25 > 16`, which first happens at `N = 65`. -/
theorem linear_backoff_spec (now : ℚ) (s : StreamWriter) (N : Nat)
    (hcount : s.connect_errors + 1 = N)
    (hnoreset : now - s.last_connect_error ≤ linear_wait_max * 2) :
    (back_off_linearly now s).1.connect_errors = N ∧
    (back_off_linearly now s).1.last_connect_error = now ∧
    (back_off_linearly now s).2 =
      (if linear_wait_max < (N : ℚ) * linear_back_off_rate
       then .error .tooManyConnectFailures
       else .ok ((N : ℚ) * linear_back_off_rate)) ∧
    (linear_wait_max < (N : ℚ) * linear_back_off_rate ↔ 65 ≤ N) := by
  have hdecay : ¬ (now - s.last_connect_error > linear_wait_max * 2) :=
    not_lt.mpr hnoreset
  have hmax : linear_wait_max = 16 := rfl
  have hrate : linear_back_off_rate = 1 / 4 := rfl
  refine ⟨?_, rfl, ?_, ?_⟩
  · simp [back_off_linearly, hdecay, hcount]
  · simp only [back_off_linearly, if_neg hdecay, hcount, gt_iff_lt]
  · rw [hmax, hrate]
    constructor
    · intro h
      by_contra hN
      push_neg at hN
      have h64 : (N : ℚ) ≤ 64 := by exact_mod_cast Nat.lt_succ_iff.mp hN
      linarith
    · intro h
      have h65 : (65 : ℚ) ≤ (N : ℚ) := by exact_mod_cast h
      linarith

/-- Concrete instances of `linear_backoff_spec`: the 64th failure still
sleeps (16 seconds exactly); the 65th raises. -/
theorem linear_backoff_witness :
    (back_off_linearly 0 (sampleWriter 64 0)).2
      = .error .tooManyConnectFailures ∧
    (back_off_linearly 0 (sampleWriter 63 0)).2 = .ok 16 := by
  have hnr : ∀ ce : Nat, (0 : ℚ) - (sampleWriter ce 0).last_connect_error
      ≤ linear_wait_max * 2 := by
    intro ce
    norm_num [sampleWriter, streamWriterDefault, streamWriterInit, linear_wait_max]
  constructor
  · have h := linear_backoff_spec 0 (sampleWriter 64 0) 65 rfl (hnr 64)
    rw [h.2.2.1, if_pos (h.2.2.2.mpr (by norm_num))]
  · have h := linear_backoff_spec 0 (sampleWriter 63 0) 64 rfl (hnr 63)
    rw [h.2.2.1, if_neg fun hlt => by exact absurd (h.2.2.2.mp hlt) (by norm_num)]
    norm_num [linear_back_off_rate]

/-- C4: the Nth consecutive peer-disconnect backoff (counter at `N - 1`
and no decay reset, i.e. at most `2 * 320` seconds since the previous
disconnection) records the disconnection time, bumps the counter to
`N`, and waits `5 ^ N` seconds — raising `TooManyConnectFailures`
exactly when `5 ^ N > 320`, which first happens at `N = 4` (since
`5 ^ 3 = 125 ≤ 320` and `5 ^ 4 = 625 > 320`). -/
theorem exponential_backoff_spec (now : ℚ) (s : StreamWriter) (N : Nat)
    (hcount : s.disconnections + 1 = N)
    (hnoreset : now - s.last_disconnection ≤ (exponential_wait_max : ℚ) * 2) :
    (back_off_exponentially now s).1.disconnections = N ∧
    (back_off_exponentially now s).1.last_disconnection = now ∧
    (back_off_exponentially now s).2 =
      (if exponential_wait_max < exponential_back_off_base ^ N
       then .error .tooManyConnectFailures
       else .ok (exponential_back_off_base ^ N)) ∧
    (exponential_wait_max < exponential_back_off_base ^ N ↔ 4 ≤ N) := by
  have hdecay : ¬ (now - s.last_disconnection > (exponential_wait_max : ℚ) * 2) :=
    not_lt.mpr hnoreset
  have hmax : exponential_wait_max = 320 := rfl
  have hbase : exponential_back_off_base = 5 := rfl
  refine ⟨?_, rfl, ?_, ?_⟩
  · simp [back_off_exponentially, hdecay, hcount]
  · simp only [back_off_exponentially, if_neg hdecay, hcount, gt_iff_lt]
  · rw [hmax, hbase]
    constructor
    · intro h
      by_contra hN
      push_neg at hN
      have h3 : N ≤ 3 := Nat.lt_succ_iff.mp hN
      have : (5 : Nat) ^ N ≤ 5 ^ 3 := Nat.pow_le_pow_right (by norm_num) h3
      omega
    · intro h
      have : (5 : Nat) ^ 4 ≤ 5 ^ N := Nat.pow_le_pow_right (by norm_num) h
      omega

/-- Concrete instances of `exponential_backoff_spec`: the 3rd
disconnection sleeps 125 seconds; the 4th raises. -/
theorem exponential_backoff_witness :
    (back_off_exponentially 0 (sampleWriter 0 3)).2
      = .error .tooManyConnectFailures ∧
    (back_off_exponentially 0 (sampleWriter 0 2)).2 = .ok 125 := by
  have hnr : ∀ d : Nat, (0 : ℚ) - (sampleWriter 0 d).last_disconnection
      ≤ (exponential_wait_max : ℚ) * 2 := by
    intro d
    norm_num [sampleWriter, streamWriterDefault, streamWriterInit,
      exponential_wait_max]
  constructor
  · have h := exponential_backoff_spec 0 (sampleWriter 0 3) 4 rfl (hnr 3)
    rw [h.2.2.1, if_pos (h.2.2.2.mpr (by norm_num))]
  · have h := exponential_backoff_spec 0 (sampleWriter 0 2) 3 rfl (hnr 2)
    rw [h.2.2.1, if_neg fun hlt => by exact absurd (h.2.2.2.mp hlt) (by norm_num)]
    norm_num [exponential_back_off_base]

/-! ## Ignorable status codes -/

/-- Refutation of C5 as stated: the claimed default ignorable set
contains 408, but a `StreamWriter` constructed without overrides does
not ignore status 408 (its default is the tuple `(None, 200)`). -/
theorem ignore_defaults_counterexample :
    some 408 ∈ specDefaultIgnorableSet ∧
    some 408 ∉ (streamWriterDefault [] [] 0).ignore_status_codes := by
  constructor
  · decide
  · decide

/-- C5 (corrected): a `StreamWriter` constructed without overrides
ignores exactly the statuses `{no-status, 200}`; only the higher-level
`Stream.write`/`Stream.heartbeat` default `reconnect_on` tuple is
`{200, no-status, 408}`; and the ignorable set is configurable per
handle through the `ignore_status_codes` constructor parameter. -/
theorem ignore_defaults_spec :
    (∀ (tok host : PyStr) (t0 : ℚ) (c : Option Nat),
      c ∈ (streamWriterDefault tok host t0).ignore_status_codes
        ↔ (c = none ∨ c = some 200)) ∧
    (∀ c : Option Nat,
      c ∈ streamWriteDefaultReconnectOn
        ↔ (c = some 200 ∨ c = none ∨ c = some 408)) ∧
    (∀ (tok host : PyStr) (t0 : ℚ) (codes : List (Option Nat))
        (errs : List Nat) (ql : Nat) (iwt : ℚ),
      (streamWriterInit tok codes errs ql iwt host t0).ignore_status_codes
        = codes) := by
  refine ⟨?_, ?_, fun tok host t0 codes errs ql iwt => rfl⟩
  · intro tok host t0 c
    simp [streamWriterDefault, streamWriterInit, init_default_ignore_status_codes]
  · intro c
    simp [streamWriteDefaultReconnectOn]

/-! ## Response classification -/

/-- C6: evaluating a captured server response raises
`ClosedConnection` carrying the parsed body and status whenever the
status is outside the handle's ignorable set; for an ignorable status
`>= 500` the linear (connect-failure) backoff runs (the connect-error
counter is bumped, the disconnection counter untouched); for every
other ignorable status — including the no-status parse failure — the
exponential (disconnect) backoff runs instead. -/
theorem response_classification (now : ℚ) (s : StreamWriter)
    (raw : RawResponse) (h : s.response = some raw) :
    ((parseResponse raw).1 ∉ s.ignore_status_codes →
      raise_for_response now s =
        (s, .error (.closedConnection (parseResponse raw).2
          (parseResponse raw).1))) ∧
    ((parseResponse raw).1 ∈ s.ignore_status_codes →
      (statusGe500 (parseResponse raw).1 = true →
        raise_for_response now s =
          ((back_off_linearly now s).1,
           (back_off_linearly now s).2.map fun _ => ()) ∧
        (raise_for_response now s).1.connect_errors =
          (if now - s.last_connect_error > linear_wait_max * 2 then 0
           else s.connect_errors) + 1 ∧
        (raise_for_response now s).1.disconnections = s.disconnections) ∧
      (statusGe500 (parseResponse raw).1 = false →
        raise_for_response now s =
          ((back_off_exponentially now s).1,
           (back_off_exponentially now s).2.map fun _ => ()) ∧
        (raise_for_response now s).1.disconnections =
          (if now - s.last_disconnection > (exponential_wait_max : ℚ) * 2
           then 0 else s.disconnections) + 1 ∧
        (raise_for_response now s).1.connect_errors = s.connect_errors)) := by
  rcases hpr : parseResponse raw with ⟨st, msg⟩
  constructor
  · intro hnot
    simp [raise_for_response, h, hpr, hnot]
  · intro hmem
    constructor
    · intro hge
      have hr : raise_for_response now s =
          ((back_off_linearly now s).1,
           (back_off_linearly now s).2.map fun _ => ()) := by
        simp [raise_for_response, h, hpr, hmem, hge]
      refine ⟨hr, ?_, ?_⟩
      · rw [hr]
        simp [back_off_linearly]
      · rw [hr]
        simp [back_off_linearly]
    · intro hge
      have hr : raise_for_response now s =
          ((back_off_exponentially now s).1,
           (back_off_exponentially now s).2.map fun _ => ()) := by
        simp [raise_for_response, h, hpr, hmem, hge]
      refine ⟨hr, ?_, ?_⟩
      · rw [hr]
        simp [back_off_exponentially]
      · rw [hr]
        simp [back_off_exponentially]

/-- Concrete instances of `response_classification`: status 404 under
the default ignorable set raises `ClosedConnection`; an ignorable 503
runs the linear backoff (connect-error counter bumped, disconnection
counter untouched); an ignorable no-status response runs the
exponential backoff. -/
theorem response_classification_witness :
    raise_for_response 0 { streamWriterDefault [] [] 0 with
        response := some (some (404, [])) }
      = ({ streamWriterDefault [] [] 0 with response := some (some (404, [])) },
         .error (.closedConnection [] (some 404))) ∧
    ((raise_for_response 0 { streamWriterDefault [] [] 0 with
        response := some (some (503, [])),
        ignore_status_codes := [some 503] }).1.connect_errors = 1 ∧
     (raise_for_response 0 { streamWriterDefault [] [] 0 with
        response := some (some (503, [])),
        ignore_status_codes := [some 503] }).1.disconnections = 0) ∧
    ((raise_for_response 0 { streamWriterDefault [] [] 0 with
        response := some none }).1.disconnections = 1 ∧
     (raise_for_response 0 { streamWriterDefault [] [] 0 with
        response := some none }).1.connect_errors = 0) := by
  refine ⟨?_, ⟨?_, ?_⟩, ⟨?_, ?_⟩⟩
  · exact (response_classification 0 _ (some (404, [])) rfl).1 (by decide)
  · rw [((response_classification 0 _ (some (503, [])) rfl).2 (by decide)).1
      rfl |>.2.1]
    norm_num [streamWriterDefault, streamWriterInit, linear_wait_max]
  · rw [((response_classification 0 _ (some (503, [])) rfl).2 (by decide)).1
      rfl |>.2.2]
    rfl
  · rw [((response_classification 0 _ none rfl).2 (by decide)).2
      rfl |>.2.1]
    norm_num [streamWriterDefault, streamWriterInit, exponential_wait_max]
  · rw [((response_classification 0 _ none rfl).2 (by decide)).2
      rfl |>.2.2]
    rfl

/-! ## Chunked-transfer encoding -/

/-- C7 (code bug): `StreamWriter._write` computes the chunk-length
prefix from the Python CHARACTER length of the item but transmits its
UTF-8 BYTES, so for any chunk with a code point above 127 the emitted
message is not valid HTTP chunked-transfer coding.  At the failing
input U+00E9 (code point 233) the decoder finds no CRLF after the
announced 2 bytes and fails, instead of yielding the UTF-8 bytes of
the chunk plus its trailing line break; an all-ASCII chunk such as
`'a'` round-trips exactly as the claim demands. -/
theorem chunk_encoding_bug :
    decodeChunk (chunkMessageBytes (addNl [233])) = none ∧
    utf8Encode (addNl [233]) = [195, 169, 10] ∧
    chunkMessageBytes (addNl [233]) = [50, 13, 10, 195, 169, 10, 13, 10] ∧
    decodeChunk (chunkMessageBytes (addNl [97]))
      = some (utf8Encode (addNl [97])) := by
  refine ⟨by decide, by decide, by decide, by decide⟩

/-! ## Worker failure propagation and open -/

/-- C8: a failure inside the background worker is never raised
synchronously — `read_write` returns normally for every outcome and
stores the exception in the handle's `error` slot; `open` is a no-op on
a connected handle; on a non-connected handle with a stored
non-ignorable error, `open` re-raises that error; with a stored
ignorable socket error it applies the linear backoff and — when the
backoff itself does not give up — resets the cleared state and starts a
new worker thread. -/
theorem worker_error_propagation :
    (∀ outcome : Except (WorkerError × StreamWriter) StreamWriter,
      (read_write outcome).2 = .ok ()) ∧
    (∀ (e : WorkerError) (sMid : StreamWriter),
      (read_write (.error (e, sMid))).1.error = some e) ∧
    (∀ (now : ℚ) (s : StreamWriter), connected s = true →
      openWriter now s = (s, .ok ())) ∧
    (∀ (now : ℚ) (s : StreamWriter) (e : WorkerError),
      connected s = false → s.response = none → s.error = some e →
      e.classId ∉ s.ignore_errors →
      openWriter now s = (s, .error (.raisedError e))) ∧
    (∀ (now : ℚ) (s : StreamWriter) (e : WorkerError) (w : ℚ),
      connected s = false → s.response = none → s.error = some e →
      e.classId ∈ s.ignore_errors → e.is_socket = true →
      (back_off_linearly now s).2 = .ok w →
      openWriter now s =
        ({ reset (back_off_linearly now s).1 with thread := true }, .ok ())) := by
  refine ⟨?_, ?_, ?_, ?_, ?_⟩
  · intro outcome
    rcases outcome with sEnd | ⟨e, sMid⟩ <;> rfl
  · intro e sMid
    rfl
  · intro now s hconn
    simp [openWriter, hconn]
  · intro now s e hconn hresp herr hnot
    simp [openWriter, hconn, raise_for_response, hresp, raise_for_error, herr,
      hnot]
  · intro now s e w hconn hresp herr hmem hsock hbo
    simp [openWriter, hconn, raise_for_response, hresp, raise_for_error, herr,
      hmem, hsock, hbo, Except.map]

/-- Concrete instances of `worker_error_propagation`: a worker
exception of class 9 returns normally and is stored; `open` on a
connected handle is the identity; `open` re-raises a stored
non-ignorable error of class 7; `open` after a stored ignorable socket
error of class 3 backs off, resets and restarts the worker. -/
theorem worker_error_propagation_witness :
    (read_write (.error (⟨9, false⟩, streamWriterDefault [] [] 0))).2
      = .ok () ∧
    (read_write (.error (⟨9, false⟩, streamWriterDefault [] [] 0))).1.error
      = some ⟨9, false⟩ ∧
    openWriter 0 { streamWriterDefault [] [] 0 with thread := true }
      = ({ streamWriterDefault [] [] 0 with thread := true }, .ok ()) ∧
    openWriter 0 { streamWriterDefault [] [] 0 with error := some ⟨7, false⟩ }
      = ({ streamWriterDefault [] [] 0 with error := some ⟨7, false⟩ },
         .error (.raisedError ⟨7, false⟩)) ∧
    openWriter 0 { streamWriterDefault [] [] 0 with
      error := some ⟨3, true⟩
      ignore_errors := [3] }
      = ({ reset (back_off_linearly 0 { streamWriterDefault [] [] 0 with
            error := some ⟨3, true⟩
            ignore_errors := [3] }).1 with thread := true }, .ok ()) := by
  refine ⟨worker_error_propagation.1 _, worker_error_propagation.2.1 _ _,
    worker_error_propagation.2.2.1 0 _ rfl,
    worker_error_propagation.2.2.2.1 0 _ ⟨7, false⟩ rfl rfl rfl (by decide),
    worker_error_propagation.2.2.2.2 0 _ ⟨3, true⟩ (1 / 4) rfl rfl rfl
      (by decide) rfl ?_⟩
  simp [back_off_linearly, streamWriterDefault, streamWriterInit,
    linear_back_off_rate, linear_wait_max]
  norm_num

/-! ## Liveness heartbeat -/

/-- C9: on a connected handle the pulse check enqueues a keep-alive
only when more than 30 seconds have passed since the recorded beat AND
the queue is empty; when it fires it enqueues exactly the one empty
chunk (with its trailing line break) and re-stamps the beat at `now`;
and any pulse within 30 seconds of a recorded beat enqueues nothing, so
each 30-second window produces at most one heartbeat write. -/
theorem heartbeat_spec (now : ℚ) (s : StreamWriter)
    (hconn : connected s = true) :
    ((check_pulse now s).1.queue ≠ s.queue →
      (30 < now - (s.last_beat.getD now) ∧ s.queue = [])) ∧
    (∀ b : ℚ, s.last_beat = some b → 30 < now - b → s.queue = [] →
      1 ≤ s.queue_length →
      (check_pulse now s).1.queue = [addNl []] ∧
      (check_pulse now s).1.last_beat = some now) ∧
    (∀ (nxt : ℚ) (s' : StreamWriter), s'.last_beat = some now →
      nxt - now ≤ 30 → (check_pulse nxt s').1.queue = s'.queue) := by
  refine ⟨?_, ?_, ?_⟩
  · intro hchanged
    by_cases h30 : 30 < now - (s.last_beat.getD now)
    · refine ⟨h30, ?_⟩
      by_cases hq : s.queue = []
      · exact hq
      · exact absurd (by simp [check_pulse, h30, hq]) hchanged
    · exact absurd (by simp [check_pulse, h30]) hchanged
  · intro b hb h30 hq hql
    have hthread : s.thread = true := hconn
    have h30' : 30 < now - ((s.last_beat).getD now) := by
      rw [hb]
      simpa using h30
    constructor
    · have hqueue : (check_pulse now s).1.queue
          = List.take s.queue_length [addNl []] := by
        simp [check_pulse, h30', hq, write, connected, hthread, dequeAppendleft]
      rw [hqueue, List.take_of_length_le (by simpa using hql)]
    · simp [check_pulse, h30', hq, write, connected, hthread]
  · intro nxt s' hb h30
    have hno : ¬ (30 < nxt - (s'.last_beat.getD nxt)) := by
      rw [hb]
      simp only [Option.getD_some]
      linarith
    simp [check_pulse, hno]

/-- Concrete instances of `heartbeat_spec`: a pulse at time 31 with a
beat recorded at time 0 and an empty queue enqueues one empty chunk and
re-stamps the beat; a pulse at time 61 against a beat at time 31
(exactly 30 seconds later) enqueues nothing. -/
theorem heartbeat_witness :
    (check_pulse 31 { streamWriterDefault [] [] 0 with
        thread := true
        last_beat := some 0 }).1.queue = [[lineFeed]] ∧
    (check_pulse 31 { streamWriterDefault [] [] 0 with
        thread := true
        last_beat := some 0 }).1.last_beat = some 31 ∧
    (check_pulse 61 { streamWriterDefault [] [] 0 with
        thread := true
        last_beat := some 31 }).1.queue = [] := by
  have h := heartbeat_spec 31 { streamWriterDefault [] [] 0 with
      thread := true
      last_beat := some 0 } rfl
  have h2 := h.2.1 0 rfl (by norm_num) rfl (by
    norm_num [streamWriterDefault, streamWriterInit, init_default_queue_length])
  refine ⟨h2.1, h2.2, ?_⟩
  have h3 := (heartbeat_spec 31 { streamWriterDefault [] [] 0 with
      thread := true
      last_beat := some 31 } rfl).2.2 61
    { streamWriterDefault [] [] 0 with
      thread := true
      last_beat := some 31 }
    rfl (by norm_num)
  simpa using h3

/-! ## Reset frame -/

/-- C10: `_reset` clears exactly the pending response, the stored
error, the heartbeat timestamp and the reader/writer references, and
leaves every other field — in particular both failure counters and
their last-failure timestamps, and also the queue — unchanged; and a
successful `open` from a disconnected handle with no stored failure is
exactly reset-plus-worker-start, so the backoff escalation state
carries over across reconnects. -/
theorem reset_frame_spec (s : StreamWriter) :
    (reset s).response = none ∧ (reset s).error = none ∧
    (reset s).last_beat = none ∧ (reset s).reader = false ∧
    (reset s).writer = false ∧
    (reset s).connect_errors = s.connect_errors ∧
    (reset s).last_connect_error = s.last_connect_error ∧
    (reset s).disconnections = s.disconnections ∧
    (reset s).last_disconnection = s.last_disconnection ∧
    (reset s).queue = s.queue ∧ (reset s).token = s.token ∧
    (reset s).ignore_status_codes = s.ignore_status_codes ∧
    (reset s).ignore_errors = s.ignore_errors ∧
    (reset s).queue_length = s.queue_length ∧
    (reset s).initial_write_timeout = s.initial_write_timeout ∧
    (reset s).thread = s.thread ∧ (reset s).host = s.host ∧
    (reset s).port = s.port ∧
    (∀ now : ℚ, connected s = false → s.response = none → s.error = none →
      openWriter now s = ({ reset s with thread := true }, .ok ()) ∧
      (openWriter now s).1.connect_errors = s.connect_errors ∧
      (openWriter now s).1.last_connect_error = s.last_connect_error ∧
      (openWriter now s).1.disconnections = s.disconnections ∧
      (openWriter now s).1.last_disconnection = s.last_disconnection) := by
  refine ⟨rfl, rfl, rfl, rfl, rfl, rfl, rfl, rfl, rfl, rfl, rfl, rfl, rfl,
    rfl, rfl, rfl, rfl, rfl, ?_⟩
  intro now hconn hresp herr
  have hopen : openWriter now s = ({ reset s with thread := true }, .ok ()) := by
    simp [openWriter, hconn, raise_for_response, hresp, raise_for_error, herr]
  refine ⟨hopen, ?_, ?_, ?_, ?_⟩ <;> rw [hopen] <;> rfl

/-- Concrete instance of `reset_frame_spec`: resetting a writer with
escalated counters keeps them, and a clean `open` keeps them too. -/
theorem reset_frame_witness :
    (reset (sampleWriter 7 2)).connect_errors = 7 ∧
    (reset (sampleWriter 7 2)).disconnections = 2 ∧
    (reset (sampleWriter 7 2)).error = none ∧
    (openWriter 0 (sampleWriter 7 2)).1.connect_errors = 7 ∧
    (openWriter 0 (sampleWriter 7 2)).1.disconnections = 2 := by
  have h := reset_frame_spec (sampleWriter 7 2)
  have ho := h.2.2.2.2.2.2.2.2.2.2.2.2.2.2.2.2.2.2 0 rfl rfl rfl
  exact ⟨h.2.2.2.2.2.1, h.2.2.2.2.2.2.2.1, h.2.1, ho.2.1, ho.2.2.2.1⟩

end Plotly
